import Mathlib

/-!
Verification of the temporal event model reference implementation
(`reference/python/temporal.py`): a shallow embedding of the event
reducer, diff engine, timeline builder, snapshot deriver and validators,
together with theorems about their contracts.

Modelling conventions:
* Python dicts are association lists `List (String × Value)`; lookup and
  assignment use first-occurrence semantics, matching real dicts (which
  never hold duplicate keys) and preserving insertion order.
* JSON-style payload values are the inductive `Value`; numbers are
  modelled as integers (the model does not cover floating point).
* `raise ValueError` in the reducer becomes `Except.error` carrying a
  typed failure from which the exact Python message is rendered.
-/

/-- JSON-representable values stored in payloads and snapshot states
(spec §6: strings, numbers, booleans, null, sequences, mappings). -/
inductive Value where
  | null : Value
  | bool : Bool → Value
  | int : Int → Value
  | str : String → Value
  | arr : List Value → Value
  | obj : List (String × Value) → Value

mutual

/-- Structural equality of values (Python `==` on JSON-like data). -/
def Value.beq : Value → Value → Bool
  | .null, .null => true
  | .bool a, .bool b => a == b
  | .int a, .int b => a == b
  | .str a, .str b => a == b
  | .arr a, .arr b => Value.beqArr a b
  | .obj a, .obj b => Value.beqObj a b
  | _, _ => false

def Value.beqArr : List Value → List Value → Bool
  | [], [] => true
  | x :: xs, y :: ys => Value.beq x y && Value.beqArr xs ys
  | _, _ => false

def Value.beqObj : List (String × Value) → List (String × Value) → Bool
  | [], [] => true
  | (k, v) :: xs, (k', v') :: ys => k == k' && Value.beq v v' && Value.beqObj xs ys
  | _, _ => false

end

instance : BEq Value := ⟨Value.beq⟩

/-- Induction over `Value` reaching inside sequences and mappings. -/
theorem Value.inductionOn (motive : Value → Prop)
    (hnull : motive .null)
    (hbool : ∀ b, motive (.bool b))
    (hint : ∀ n, motive (.int n))
    (hstr : ∀ s, motive (.str s))
    (harr : ∀ xs, (∀ x ∈ xs, motive x) → motive (.arr xs))
    (hobj : ∀ fs, (∀ p ∈ fs, motive p.2) → motive (.obj fs)) :
    ∀ v, motive v
  | .null => hnull
  | .bool b => hbool b
  | .int n => hint n
  | .str s => hstr s
  | .arr xs => harr xs (fun x hx =>
      have : sizeOf x < 1 + sizeOf xs := by
        have := List.sizeOf_lt_of_mem hx
        omega
      Value.inductionOn motive hnull hbool hint hstr harr hobj x)
  | .obj fs => hobj fs (fun p hp =>
      have : sizeOf p.2 < 1 + sizeOf fs := by
        have h1 := List.sizeOf_lt_of_mem hp
        have h2 : sizeOf p.2 < sizeOf p := by
          cases p; simp only [Prod.mk.sizeOf_spec]; omega
        omega
      Value.inductionOn motive hnull hbool hint hstr harr hobj p.2)
termination_by v => sizeOf v

theorem Value.beq_iff : ∀ a b : Value, Value.beq a b = true ↔ a = b := by
  intro a
  induction a using Value.inductionOn with
  | hnull => intro b; cases b <;> simp [Value.beq]
  | hbool x => intro b; cases b <;> simp [Value.beq]
  | hint x => intro b; cases b <;> simp [Value.beq]
  | hstr x => intro b; cases b <;> simp [Value.beq]
  | harr xs ih =>
      have key : ∀ ys, Value.beqArr xs ys = true ↔ xs = ys := by
        induction xs with
        | nil => intro ys; cases ys <;> simp [Value.beqArr]
        | cons x xs ihx =>
            have ihhead := ih x (List.mem_cons_self x xs)
            have ihtail := ihx (fun z hz => ih z (List.mem_cons_of_mem x hz))
            intro ys
            cases ys with
            | nil => simp [Value.beqArr]
            | cons y ys =>
                simp [Value.beqArr, ihhead y, ihtail ys]
      intro b
      cases b <;> simp [Value.beq, key]
  | hobj fs ih =>
      have key : ∀ gs, Value.beqObj fs gs = true ↔ fs = gs := by
        induction fs with
        | nil => intro gs; cases gs <;> simp [Value.beqObj]
        | cons p ps ihp =>
            obtain ⟨k, v⟩ := p
            have ihhead : ∀ b, Value.beq v b = true ↔ v = b :=
              ih (k, v) (List.mem_cons_self _ _)
            have ihtail := ihp (fun z hz => ih z (List.mem_cons_of_mem _ hz))
            intro gs
            cases gs with
            | nil => simp [Value.beqObj]
            | cons q qs =>
                obtain ⟨k', v'⟩ := q
                simp [Value.beqObj, ihhead v', ihtail qs, and_assoc]
      intro b
      cases b <;> simp [Value.beq, key]

instance : LawfulBEq Value where
  eq_of_beq h := (Value.beq_iff _ _).1 h
  rfl := (Value.beq_iff _ _).2 rfl

instance : DecidableEq Value := fun a b =>
  decidable_of_iff (Value.beq a b = true) (Value.beq_iff a b)

abbrev Dict := List (String × Value)

namespace Dict

/-- `d[k]` presence test: Python `k in d`. -/
def containsKey (d : Dict) (k : String) : Bool :=
  d.any (fun p => p.1 == k)

/-- Python `d.get(k)` / `d.get(k, default)` backing lookup: first matching key. -/
def get? (d : Dict) (k : String) : Option Value :=
  (d.find? (fun p => p.1 == k)).map (fun p => p.2)

/-- Python `d.get(k, dflt)`. Note `d.get(k)` is `getD d k .null`
(an absent key and a stored `None` are indistinguishable). -/
def getD (d : Dict) (k : String) (dflt : Value) : Value :=
  (get? d k).getD dflt

/-- Python `d[k] = v`: an existing key keeps its position and gets the
new value; a new key is appended at the end. -/
def set (d : Dict) (k : String) (v : Value) : Dict :=
  match d with
  | [] => [(k, v)]
  | (k', v') :: rest =>
      if k' == k then (k, v) :: rest else (k', v') :: set rest k v

end Dict

example : Dict.set [("a", .int 1), ("b", .int 2)] "a" (.int 5) =
    [("a", .int 5), ("b", .int 2)] := by decide

example : Dict.getD [("a", .null)] "a" .null = Dict.getD [] "a" .null := by decide

instance {ε α : Type} [DecidableEq ε] [DecidableEq α] : DecidableEq (Except ε α)
  | .ok a, .ok b =>
      if h : a = b then .isTrue (by rw [h])
      else .isFalse (fun hh => h (Except.ok.inj hh))
  | .error a, .error b =>
      if h : a = b then .isTrue (by rw [h])
      else .isFalse (fun hh => h (Except.error.inj hh))
  | .ok _, .error _ => .isFalse (fun hh => Except.noConfusion hh)
  | .error _, .ok _ => .isFalse (fun hh => Except.noConfusion hh)

/-- Lexicographic comparison of char lists by code point: Python's `<` on
strings (written out so it evaluates inside the kernel). -/
def charListLt : List Char → List Char → Bool
  | [], [] => false
  | [], _ :: _ => true
  | _ :: _, [] => false
  | a :: as, b :: bs =>
      decide (a.toNat < b.toNat) || (a.toNat == b.toNat && charListLt as bs)

/-- Python `a < b` on strings. -/
def pyStrLt (a b : String) : Bool := charListLt a.toList b.toList

/-- Python `a <= b` on strings (`¬ b < a` for this total order). -/
def pyStrLe (a b : String) : Bool := !(pyStrLt b a)

theorem charListLt_irrefl : ∀ as, charListLt as as = false := by
  intro as
  induction as with
  | nil => rfl
  | cons a as ih => simp [charListLt, ih]

theorem charListLt_trans : ∀ as bs cs, charListLt as bs = true →
    charListLt bs cs = true → charListLt as cs = true := by
  intro as
  induction as with
  | nil =>
      intro bs cs h1 h2
      cases bs with
      | nil => cases cs <;> simp_all [charListLt]
      | cons b bs => cases cs with
        | nil => simp_all [charListLt]
        | cons c cs => simp [charListLt]
  | cons a as ih =>
      intro bs cs h1 h2
      cases bs with
      | nil => simp_all [charListLt]
      | cons b bs =>
          cases cs with
          | nil => simp_all [charListLt]
          | cons c cs =>
              simp only [charListLt, Bool.or_eq_true, Bool.and_eq_true,
                decide_eq_true_eq, beq_iff_eq] at h1 h2 ⊢
              rcases h1 with h1 | ⟨h1, h1'⟩ <;> rcases h2 with h2 | ⟨h2, h2'⟩
              · exact Or.inl (h1.trans h2)
              · exact Or.inl (h2 ▸ h1)
              · exact Or.inl (h1 ▸ h2)
              · exact Or.inr ⟨h1.trans h2, ih bs cs h1' h2'⟩

theorem charListLt_eq_of_not : ∀ as bs, charListLt as bs = false →
    charListLt bs as = false → as = bs := by
  intro as
  induction as with
  | nil => intro bs h1 _; cases bs with
      | nil => rfl
      | cons b bs => simp [charListLt] at h1
  | cons a as ih =>
      intro bs h1 h2
      cases bs with
      | nil => simp [charListLt] at h2
      | cons b bs =>
          simp only [charListLt, Bool.or_eq_false_iff, Bool.and_eq_false_iff,
            decide_eq_false_iff_not, Nat.not_lt, beq_eq_false_iff_ne, ne_eq] at h1 h2
          obtain ⟨hab, h1'⟩ := h1
          obtain ⟨hba, h2'⟩ := h2
          have hane : a.toNat = b.toNat := Nat.le_antisymm hba hab
          have hceq : a = b :=
            Char.eq_of_val_eq (UInt32.ext (show a.val.toNat = b.val.toNat from hane))
          subst hceq
          rcases h1' with h1' | h1'
          · exact absurd rfl h1'
          · rcases h2' with h2' | h2'
            · exact absurd rfl h2'
            · exact congrArg (a :: ·) (ih bs h1' h2')

theorem pyStrLt_trans {a b c : String} (h1 : pyStrLt a b = true)
    (h2 : pyStrLt b c = true) : pyStrLt a c = true :=
  charListLt_trans _ _ _ h1 h2

theorem pyStrLt_asymm {a b : String} (h : pyStrLt a b = true) :
    pyStrLt b a = false := by
  rcases hba : pyStrLt b a
  · rfl
  · have := pyStrLt_trans h hba
    unfold pyStrLt at this
    simp [charListLt_irrefl] at this

theorem pyStrLt_of_not {a b : String} (h : pyStrLt a b = false) :
    a = b ∨ pyStrLt b a = true := by
  rcases hba : pyStrLt b a
  · left
    exact String.ext (charListLt_eq_of_not _ _ h hba)
  · right; rfl

theorem pyStrLe_iff {a b : String} :
    pyStrLe a b = true ↔ pyStrLt a b = true ∨ a = b := by
  unfold pyStrLe
  constructor
  · intro h
    simp only [Bool.not_eq_true'] at h
    rcases pyStrLt_of_not h with h' | h'
    · exact Or.inr h'.symm
    · exact Or.inl h'
  · rintro (h | rfl)
    · simp [pyStrLt_asymm h]
    · simp [pyStrLt, charListLt_irrefl]

theorem pyStrLe_total (a b : String) : pyStrLe a b = true ∨ pyStrLe b a = true := by
  unfold pyStrLe
  rcases h : pyStrLt b a
  · left; rfl
  · right; simp [pyStrLt_asymm h]

theorem pyStrLe_trans {a b c : String} (h1 : pyStrLe a b = true)
    (h2 : pyStrLe b c = true) : pyStrLe a c = true := by
  unfold pyStrLe at *
  simp only [Bool.not_eq_true'] at h1 h2 ⊢
  rcases hc : pyStrLt c a
  · rfl
  · rcases pyStrLt_of_not h2 with rfl | hbc
    · rw [hc] at h1; cases h1
    · have := pyStrLt_trans hbc hc
      rw [this] at h1; cases h1

/-- Python `r.get(k)` on a record held as a `Value`. A non-mapping record
raises `AttributeError` in Python (process-fatal, outside the ValueError
failure model); the model yields `null` there. -/
def Value.vget (v : Value) (k : String) : Value :=
  match v with
  | .obj fs => Dict.getD fs k .null
  | _ => .null

mutual

/-- Python `repr` of a JSON-like value (used by `str` inside containers). -/
def Value.pyRepr : Value → String
  | .null => "None"
  | .bool true => "True"
  | .bool false => "False"
  | .int n => toString n
  | .str s =>
      String.singleton (Char.ofNat 39) ++ s ++ String.singleton (Char.ofNat 39)
  | .arr xs => "[" ++ Value.pyReprArr xs ++ "]"
  | .obj fs => "\x7b" ++ Value.pyReprObj fs ++ "\x7d"

def Value.pyReprArr : List Value → String
  | [] => ""
  | [x] => Value.pyRepr x
  | x :: y :: rest => Value.pyRepr x ++ ", " ++ Value.pyReprArr (y :: rest)

def Value.pyReprObj : List (String × Value) → String
  | [] => ""
  | [(k, v)] =>
      String.singleton (Char.ofNat 39) ++ k ++ String.singleton (Char.ofNat 39)
        ++ ": " ++ Value.pyRepr v
  | (k, v) :: q :: rest =>
      String.singleton (Char.ofNat 39) ++ k ++ String.singleton (Char.ofNat 39)
        ++ ": " ++ Value.pyRepr v ++ ", " ++ Value.pyReprObj (q :: rest)

end

/-- Python `str(v)` (what an f-string interpolation renders). -/
def Value.pyStr : Value → String
  | .str s => s
  | v => Value.pyRepr v

/-- An event record (spec §3): the five fields, `payload` an open
string-keyed mapping of JSON values. -/
structure Event where
  id : String
  entity_id : String
  event_type : String
  timestamp : String
  payload : Dict
deriving DecidableEq

/-- A derived snapshot (spec §3). -/
structure Snapshot where
  entity_id : String
  as_of : String
  state : Dict
  last_event_id : String
  deleted : Bool
deriving DecidableEq

/-- The typed failures raised as `ValueError` by `apply_event`, one
constructor per taxonomy kind of spec §7.  `action` records the verb used
at the raise site (`"update"`, `"delete"`, `"add relationship to"`,
`"remove relationship from"`) so the exact Python message is recoverable. -/
inductive ApplyError where
  | entityAlreadyExists (entityId : String)
  | entityNotFound (action : String) (entityId : String)
  | entityDeleted (action : String) (entityId : String)
  | relationshipNotFound (relType : Value) (target : Value)
  | unknownEventType (eventType : String)
deriving DecidableEq

/-- The `str()` of the `ValueError` raised at each failure site of
`apply_event` in `temporal.py`. -/
def ApplyError.message : ApplyError → String
  | .entityAlreadyExists eid => "Cannot create " ++ eid ++ ": already exists"
  | .entityNotFound a eid => "Cannot " ++ a ++ " " ++ eid ++ ": does not exist"
  | .entityDeleted a eid =>
      "Cannot " ++ a ++ " " ++ eid ++ ": "
        ++ (if a == "delete" then "already deleted" else "has been deleted")
  | .relationshipNotFound t g =>
      "Relationship not found: " ++ Value.pyStr t ++ " -> " ++ Value.pyStr g
  | .unknownEventType et => "Unknown event type: " ++ et

/-- The relationship list read out of a state: Python
`state.get("relationships", [])` (and the list `append`ed to in the add
branch).  A present non-sequence value would be abused by iteration /
`.append` in Python (`TypeError`/`AttributeError`, process-fatal, outside
the `ValueError` failure model); the model yields `[]` there. -/
def stateRels (state : Dict) : List Value :=
  match state.get? "relationships" with
  | some (.arr xs) => xs
  | _ => []

/-- Python `payload.get("properties", {})` in the `relationship_added`
branch.  A present non-mapping value raises `TypeError` at the `**` splat
(process-fatal, outside the model); the model yields `{}` there. -/
def relProps (payload : Dict) : Dict :=
  match payload.get? "properties" with
  | some (.obj fs) => fs
  | _ => []

/-- The `if "relationships" not in new_state: new_state["relationships"] = []`
step of the `relationship_added` branch. -/
def relationshipsEnsured (st : Dict) : Dict :=
  if st.containsKey "relationships" then st
  else st.set "relationships" (.arr [])

/-- The record appended by `relationship_added`:
`{"type": payload.get("relationship_type"), "target":
payload.get("target_entity"), **payload.get("properties", {})}` — a dict
literal built left to right, so a `properties` key named `type` or
`target` overwrites that entry in place. -/
def relRecord (payload : Dict) : Dict :=
  (relProps payload).foldl (fun r p => Dict.set r p.1 p.2)
    [("type", payload.getD "relationship_type" .null),
     ("target", payload.getD "target_entity" .null)]

/-- The match test of `relationship_removed`:
`r.get("target") == target and r.get("type") == rel_type`. -/
def relMatches (payload : Dict) (r : Value) : Bool :=
  Value.vget r "target" == payload.getD "target_entity" .null &&
    Value.vget r "type" == payload.getD "relationship_type" .null

/-- `apply_event(snapshot, event)` from `temporal.py`: apply an event to an
optional prior snapshot, returning the new snapshot or the `ValueError`
the Python code raises.  `deepcopy` is the identity in this pure model.
Two Python type-confusion crashes (a non-mapping `payload["properties"]`
splatted with `**`, a non-sequence `state["relationships"]` being appended
to or iterated) are `TypeError`/`AttributeError` in Python — process-fatal
and outside the `ValueError` failure model; the model treats those values
as empty there. -/
def apply_event (snapshot : Option Snapshot) (event : Event) :
    Except ApplyError Snapshot :=
  let event_type := event.event_type
  let entity_id := event.entity_id
  let payload := event.payload
  if event_type == "created" then
    if (match snapshot with | some snap => !snap.deleted | none => false) then
      .error (.entityAlreadyExists entity_id)
    else
      .ok { entity_id := entity_id, as_of := event.timestamp, state := payload,
            last_event_id := event.id, deleted := false }
  else if event_type == "updated" then
    match snapshot with
    | none => .error (.entityNotFound "update" entity_id)
    | some snap =>
        if snap.deleted then .error (.entityDeleted "update" entity_id)
        else
          let new_state := payload.foldl (fun st p => Dict.set st p.1 p.2) snap.state
          .ok { entity_id := entity_id, as_of := event.timestamp, state := new_state,
                last_event_id := event.id, deleted := false }
  else if event_type == "deleted" then
    match snapshot with
    | none => .error (.entityNotFound "delete" entity_id)
    | some snap =>
        if snap.deleted then .error (.entityDeleted "delete" entity_id)
        else
          .ok { entity_id := entity_id, as_of := event.timestamp,
                state := [("_deleted_state", Value.obj snap.state)],
                last_event_id := event.id, deleted := true }
  else if event_type == "relationship_added" then
    match snapshot with
    | none => .error (.entityNotFound "add relationship to" entity_id)
    | some snap =>
        if snap.deleted then .error (.entityDeleted "add relationship to" entity_id)
        else
          let st0 := snap.state
          let st1 := relationshipsEnsured st0
          let rels := stateRels st1
          .ok { entity_id := entity_id, as_of := event.timestamp,
                state := st1.set "relationships"
                  (.arr (rels ++ [Value.obj (relRecord payload)])),
                last_event_id := event.id, deleted := false }
  else if event_type == "relationship_removed" then
    match snapshot with
    | none => .error (.entityNotFound "remove relationship from" entity_id)
    | some snap =>
        if snap.deleted then .error (.entityDeleted "remove relationship from" entity_id)
        else
          let st0 := snap.state
          let rels := stateRels st0
          let new_rels := rels.filter (fun r => !(relMatches payload r))
          if new_rels.length == rels.length then
            .error (.relationshipNotFound (payload.getD "relationship_type" .null)
              (payload.getD "target_entity" .null))
          else
            .ok { entity_id := entity_id, as_of := event.timestamp,
                  state := st0.set "relationships" (.arr new_rels),
                  last_event_id := event.id, deleted := false }
  else
    .error (.unknownEventType event_type)

/-- Python string `<=` as a relation, the form sorting lemmas use. -/
def strLeP (a b : String) : Prop := pyStrLe a b = true

instance : DecidableRel strLeP := fun a b =>
  inferInstanceAs (Decidable (pyStrLe a b = true))

instance : IsTotal String strLeP := ⟨pyStrLe_total⟩

instance : IsTrans String strLeP := ⟨fun _ _ _ => pyStrLe_trans⟩

/-- One entry of a diff's `changes` list. -/
structure Change where
  field : String
  before : Value
  after : Value
deriving DecidableEq

/-- `compute_diff`'s result: `{"before": {"as_of": ...}, "after":
{"as_of": ...}, "changes": [...]}`. -/
structure Diff where
  before_as_of : Option String
  after_as_of : Option String
  changes : List Change
deriving DecidableEq

/-- `compute_diff(before, after)` from `temporal.py`.  Python's
`sorted(set(b) | set(a))` is modelled as sorting the deduplicated
concatenation of the two key lists (same resulting list: ascending
distinct keys). -/
def compute_diff (before after : Option Snapshot) : Diff :=
  let before_state := match before with | some b => b.state | none => []
  let after_state := match after with | some a => a.state | none => []
  let before_deleted := match before with | some b => b.deleted | none => false
  let after_deleted := match after with | some a => a.deleted | none => false
  let flagChanges :=
    if before_deleted != after_deleted then
      [Change.mk "deleted" (.bool before_deleted) (.bool after_deleted)]
    else []
  let all_keys :=
    List.insertionSort strLeP
      ((before_state.map Prod.fst ++ after_state.map Prod.fst).dedup)
  let fieldChanges := all_keys.filterMap (fun k =>
    let before_val := before_state.getD k .null
    let after_val := after_state.getD k .null
    if before_val != after_val then some (Change.mk k before_val after_val)
    else none)
  { before_as_of := before.map (·.as_of),
    after_as_of := after.map (·.as_of),
    changes := flagChanges ++ fieldChanges }

/-- The composite sort key order of `build_timeline`: Python tuple
comparison of `(event["timestamp"], event["id"])`, both strings. -/
def eventKeyLe (a b : Event) : Bool :=
  pyStrLt a.timestamp b.timestamp ||
    (a.timestamp == b.timestamp && pyStrLe a.id b.id)

/-- `eventKeyLe` as a relation, the form Mathlib's sorting lemmas use. -/
def eventLe (a b : Event) : Prop := eventKeyLe a b = true

instance : DecidableRel eventLe := fun a b =>
  inferInstanceAs (Decidable (eventKeyLe a b = true))

instance : IsTotal Event eventLe where
  total a b := by
    unfold eventLe eventKeyLe
    rcases h : pyStrLt a.timestamp b.timestamp
    · rcases pyStrLt_of_not h with heq | hgt
      · rcases pyStrLe_total a.id b.id with h' | h'
        · exact Or.inl (by simp [heq, h'])
        · exact Or.inr (by simp [heq, h'])
      · exact Or.inr (by simp [hgt])
    · exact Or.inl (by simp [h])

instance : IsTrans Event eventLe where
  trans a b c hab hbc := by
    unfold eventLe eventKeyLe at *
    simp only [Bool.or_eq_true, Bool.and_eq_true, beq_iff_eq] at hab hbc ⊢
    rcases hab with h1 | ⟨h1, h1'⟩ <;> rcases hbc with h2 | ⟨h2, h2'⟩
    · exact Or.inl (by
        unfold pyStrLt at *
        exact charListLt_trans _ _ _ h1 h2)
    · exact Or.inl (h2 ▸ h1)
    · exact Or.inl (h1 ▸ h2)
    · exact Or.inr ⟨h1.trans h2, pyStrLe_trans h1' h2'⟩

/-- `build_timeline(events)` from `temporal.py`: `sorted(events,
key=lambda e: (e["timestamp"], e["id"]))`, modelled as a stable sort by
`eventLe` (Python's stable sort and insertion sort agree). -/
def build_timeline (events : List Event) : List Event :=
  events.insertionSort eventLe

/-- The fold-with-break loop inside `derive_snapshot`: stop at the first
event whose timestamp exceeds `as_of`, otherwise apply it, propagating a
reducer failure. -/
def deriveLoop (as_of : String) :
    Option Snapshot → List Event → Except ApplyError (Option Snapshot)
  | s, [] => .ok s
  | s, e :: rest =>
      if pyStrLt as_of e.timestamp then .ok s
      else
        match apply_event s e with
        | .ok s' => deriveLoop as_of (some s') rest
        | .error f => .error f

/-- `derive_snapshot(events, as_of)` from `temporal.py`.  The final
`if snapshot:` is a non-`None` test (constructed snapshot dicts are never
empty) and overwrites `as_of` on the result. -/
def derive_snapshot (events : List Event) (as_of : String) :
    Except ApplyError (Option Snapshot) :=
  match deriveLoop as_of none (build_timeline events) with
  | .ok (some snap) => .ok (some { snap with as_of := as_of })
  | .ok none => .ok none
  | .error f => .error f

/-- Modelled from the spec: `datetime.fromisoformat` (Python standard
library, not code of this repository; spec §1 scopes timestamp handling to
"is this a conformant timestamp string", §9 to a sortable `YYYY-…` form).
A conformant string starts with a `YYYY-MM-DD` date (digits in every digit
position) and is either exactly that date or continues with `T` or a
space introducing a time part.  In particular the empty string is not
conformant. -/
def isoConformant (s : String) : Bool :=
  match s.toList with
  | y1 :: y2 :: y3 :: y4 :: '-' :: m1 :: m2 :: '-' :: d1 :: d2 :: rest =>
      [y1, y2, y3, y4, m1, m2, d1, d2].all Char.isDigit &&
      (match rest with
       | [] => true
       | c :: _ => c == 'T' || c == ' ')
  | _ => false

/-- Python `ts.replace("Z", "+00:00")`: every occurrence of the
single-character pattern is replaced (written out char by char so it
evaluates inside the kernel). -/
def replaceZ (s : String) : String :=
  String.mk (s.toList.foldr
    (fun c acc =>
      if c == 'Z' then '+' :: '0' :: '0' :: ':' :: '0' :: '0' :: acc
      else c :: acc) [])

/-- The guarded timestamp parse in `validate_event`: Python replaces `"Z"`
with `"+00:00"` then calls `fromisoformat`; a non-string timestamp raises
`AttributeError` at `.replace`, which the `except` also catches. -/
def tsParses : Value → Bool
  | .str s => isoConformant (replaceZ s)
  | _ => false

/-- The fixed `event_type` enumeration checked by `validate_event`. -/
def valid_types : List String :=
  ["created", "updated", "deleted", "relationship_added", "relationship_removed"]

/-- `validate_event(event)` from `temporal.py`, over an arbitrary
string-keyed mapping.  Total: every Python code path appends to `errors`
and returns it; the `try/except` around timestamp parsing is `tsParses`. -/
def validate_event (event : Dict) : List String :=
  let required := ["id", "entity_id", "event_type", "timestamp", "payload"]
  let missingErrors := required.filterMap (fun f =>
    if event.containsKey f then none
    else some ("Missing required field: " ++ f))
  let et := event.getD "event_type" .null
  let typeErrors :=
    if (valid_types.map Value.str).contains et then []
    else ["Invalid event_type: " ++ Value.pyStr et]
  let ts := event.getD "timestamp" (.str "")
  let tsErrors :=
    if tsParses ts then [] else ["Invalid timestamp format: " ++ Value.pyStr ts]
  missingErrors ++ typeErrors ++ tsErrors

/-- The replay loop inside `validate_timeline`: each `ValueError` from
`apply_event` becomes one error entry and the fold continues from the last
successfully produced snapshot. -/
def validateLoop : Option Snapshot → List Event → List String
  | _, [] => []
  | s, e :: rest =>
      match apply_event s e with
      | .ok s' => validateLoop (some s') rest
      | .error f => ("Event " ++ e.id ++ ": " ++ f.message) :: validateLoop s rest

/-- `validate_timeline(events)` from `temporal.py`. -/
def validate_timeline (events : List Event) : List String :=
  validateLoop none (build_timeline events)

/-- The state mapping an optional snapshot contributes to a diff:
`before["state"] if before else {}`. -/
def stateOf : Option Snapshot → Dict
  | some s => s.state
  | none => []

/-- The deleted flag an optional snapshot contributes to a diff:
`before.get("deleted", False) if before else False`. -/
def deletedOf : Option Snapshot → Bool
  | some s => s.deleted
  | none => false

/-- Characterization-side: the plain fold of `apply_event` over a whole
event list (no timestamp cutoff), propagating the first failure.  Used to
state what `derive_snapshot`'s halting loop computes. -/
def applyFold : Option Snapshot → List Event → Except ApplyError (Option Snapshot)
  | s, [] => .ok s
  | s, e :: rest =>
      match apply_event s e with
      | .ok s' => applyFold (some s') rest
      | .error f => .error f

/-- Characterization-side: does every event of the list apply
successfully when folded with the continue-on-failure policy of
`validate_timeline`?  (A failing event contributes no state change.) -/
def replayOk : Option Snapshot → List Event → Bool
  | _, [] => true
  | s, e :: rest =>
      match apply_event s e with
      | .ok s' => replayOk (some s') rest
      | .error _ => false

/-- Characterization-side: the (event id, failure) pairs collected by the
continue-on-failure replay, one pair per failing event, the fold resuming
from the last successfully produced snapshot. -/
def replayFailures : Option Snapshot → List Event → List (String × ApplyError)
  | _, [] => []
  | s, e :: rest =>
      match apply_event s e with
      | .ok s' => replayFailures (some s') rest
      | .error f => (e.id, f) :: replayFailures s rest

/-! ### Small facts about the dict model and the orders -/

theorem Dict.get?_cons (k' : String) (v' : Value) (rest : Dict) (k : String) :
    Dict.get? ((k', v') :: rest) k =
      if k' = k then some v' else Dict.get? rest k := by
  by_cases h : k' = k
  · subst h
    simp [Dict.get?, List.find?_cons_of_pos]
  · rw [if_neg h]
    unfold Dict.get?
    rw [List.find?_cons_of_neg]
    simpa using h

theorem Dict.get?_set_self (d : Dict) (k : String) (v : Value) :
    Dict.get? (Dict.set d k v) k = some v := by
  induction d with
  | nil => simp [Dict.set, Dict.get?]
  | cons p rest ih =>
      obtain ⟨k', v'⟩ := p
      by_cases h : k' = k
      · subst h; simp [Dict.set, Dict.get?_cons]
      · have hset : Dict.set ((k', v') :: rest) k v = (k', v') :: Dict.set rest k v := by
          simp [Dict.set, h]
        rw [hset, Dict.get?_cons, if_neg h, ih]

theorem Dict.get?_set_ne (d : Dict) (k k' : String) (v : Value) (h : k ≠ k') :
    Dict.get? (Dict.set d k v) k' = Dict.get? d k' := by
  induction d with
  | nil => simp [Dict.set, Dict.get?_cons, Dict.get?, h]
  | cons p rest ih =>
      obtain ⟨k0, v0⟩ := p
      by_cases h0 : k0 = k
      · subst h0
        have hset : Dict.set ((k0, v0) :: rest) k0 v = (k0, v) :: rest := by
          simp [Dict.set]
        rw [hset, Dict.get?_cons, Dict.get?_cons, if_neg h, if_neg h]
      · have hset : Dict.set ((k0, v0) :: rest) k v = (k0, v0) :: Dict.set rest k v := by
          simp [Dict.set, h0]
        rw [hset, Dict.get?_cons, Dict.get?_cons, ih]

theorem Dict.get?_eq_none_iff (d : Dict) (k : String) :
    Dict.get? d k = none ↔ ∀ p ∈ d, p.1 ≠ k := by
  simp [Dict.get?, List.find?_eq_none]

theorem Dict.containsKey_false_iff (d : Dict) (k : String) :
    Dict.containsKey d k = false ↔ Dict.get? d k = none := by
  simp [Dict.containsKey, Dict.get?, List.find?_eq_none, List.any_eq_false]

theorem Dict.get?_foldl_set_of_absent (props : Dict) (k : String)
    (h : ∀ p ∈ props, p.1 ≠ k) :
    ∀ d : Dict, Dict.get? (props.foldl (fun r p => Dict.set r p.1 p.2) d) k =
      Dict.get? d k := by
  induction props with
  | nil => intro d; rfl
  | cons q qs ih =>
      intro d
      simp only [List.foldl_cons]
      rw [ih (fun p hp => h p (List.mem_cons_of_mem _ hp))]
      exact Dict.get?_set_ne d q.1 k q.2 (h q (List.mem_cons_self _ _))

theorem pyStrLe_antisymm {a b : String} (h1 : pyStrLe a b = true)
    (h2 : pyStrLe b a = true) : a = b := by
  rcases pyStrLe_iff.mp h1 with h | h
  · rcases pyStrLe_iff.mp h2 with h' | h'
    · exact absurd h' (by simp [pyStrLt_asymm h])
    · exact h'.symm
  · exact h

theorem eventLe_ts_le {e x : Event} (h : eventLe e x) :
    pyStrLe e.timestamp x.timestamp = true := by
  unfold eventLe eventKeyLe at h
  simp only [Bool.or_eq_true, Bool.and_eq_true, beq_iff_eq] at h
  rcases h with h | ⟨h, _⟩
  · exact pyStrLe_iff.mpr (Or.inl h)
  · exact pyStrLe_iff.mpr (Or.inr h)

/-! ### C8: build_timeline -/

/-- C8: `build_timeline` returns the same events (a permutation of its
input; the model is pure, so the input list is untouched), ordered by the
composite key `(timestamp, id)`, both components compared as strings.
The key order is total, and antisymmetric up to key equality, so two
events with identical timestamps are ordered by id ascending and the
output is totally ordered whenever ids are unique. -/
theorem build_timeline_ordering (events : List Event) :
    (build_timeline events).Perm events ∧
    (build_timeline events).Sorted eventLe ∧
    (∀ a b : Event, eventLe a b ∨ eventLe b a) ∧
    (∀ a b : Event, eventLe a b → eventLe b a →
      a.timestamp = b.timestamp ∧ a.id = b.id) := by
  refine ⟨List.perm_insertionSort eventLe events,
    List.sorted_insertionSort eventLe events, IsTotal.total, ?_⟩
  intro a b hab hba
  unfold eventLe eventKeyLe at hab hba
  simp only [Bool.or_eq_true, Bool.and_eq_true, beq_iff_eq] at hab hba
  rcases hab with h1 | ⟨h1, h1'⟩ <;> rcases hba with h2 | ⟨h2, h2'⟩
  · exact absurd h2 (by simp [pyStrLt_asymm h1])
  · rw [h2] at h1
    unfold pyStrLt at h1
    simp [charListLt_irrefl] at h1
  · rw [h1] at h2
    unfold pyStrLt at h2
    simp [charListLt_irrefl] at h2
  · exact ⟨h1, pyStrLe_antisymm h1' h2'⟩

/-! ### C2: derive_snapshot -/

theorem deriveLoop_eq_applyFold (a : String) :
    ∀ (l : List Event) (s : Option Snapshot),
      deriveLoop a s l =
        applyFold s (l.takeWhile (fun e => pyStrLe e.timestamp a)) := by
  intro l
  induction l with
  | nil => intro s; rfl
  | cons e rest ih =>
      intro s
      rcases h : pyStrLt a e.timestamp
      · have hp : pyStrLe e.timestamp a = true := by simp [pyStrLe, h]
        simp only [deriveLoop, h, List.takeWhile_cons, hp, if_true]
        rcases happ : apply_event s e with f | s'
        · simp [applyFold, happ]
        · simp [applyFold, happ, ih]
      · have hp : pyStrLe e.timestamp a = false := by simp [pyStrLe, h]
        simp [deriveLoop, h, List.takeWhile_cons, hp, applyFold]

theorem takeWhile_eq_filter_sorted (a : String) :
    ∀ l : List Event, l.Sorted eventLe →
      l.takeWhile (fun e => pyStrLe e.timestamp a) =
        l.filter (fun e => pyStrLe e.timestamp a) := by
  intro l
  induction l with
  | nil => intro _; rfl
  | cons e rest ih =>
      intro hs
      rw [List.sorted_cons] at hs
      obtain ⟨hall, hrest⟩ := hs
      rcases hp : pyStrLe e.timestamp a
      · rw [List.takeWhile_cons, List.filter_cons]
        simp only [hp, Bool.false_eq_true, if_false, cond_false]
        symm
        rw [List.filter_eq_nil_iff]
        intro x hx
        rcases hq : pyStrLe x.timestamp a
        · simp
        · have hle := eventLe_ts_le (hall x hx)
          have := pyStrLe_trans hle hq
          rw [this] at hp
          cases hp
      · rw [List.takeWhile_cons, List.filter_cons]
        simp only [hp, if_true, cond_true]
        rw [ih hrest]

/-- C2: `derive_snapshot` equals the plain `apply_event` fold from absent
over the prefix of the sorted timeline taken while `timestamp <= asOf`
(string comparison) — the loop halts at the first event whose timestamp
exceeds `asOf` — with the surviving snapshot's `as_of` overwritten by the
requested `asOf` (absent stays absent, a reducer failure propagates); and
because the timeline is sorted, that halting prefix is exactly the set of
events with `timestamp <= asOf` (take-while equals filter). -/
theorem derive_snapshot_halting_fold (events : List Event) (as_of : String) :
    derive_snapshot events as_of =
      (applyFold none ((build_timeline events).takeWhile
          (fun e => pyStrLe e.timestamp as_of))).map
        (Option.map (fun s => { s with as_of := as_of })) ∧
    (build_timeline events).takeWhile (fun e => pyStrLe e.timestamp as_of) =
      (build_timeline events).filter (fun e => pyStrLe e.timestamp as_of) := by
  constructor
  · unfold derive_snapshot
    rw [deriveLoop_eq_applyFold]
    rcases applyFold none _ with f | os
    · rfl
    · cases os <;> rfl
  · exact takeWhile_eq_filter_sorted as_of _ (List.sorted_insertionSort eventLe events)

/-! ### C3: validate_timeline -/

theorem validateLoop_eq_map :
    ∀ (l : List Event) (s : Option Snapshot),
      validateLoop s l = (replayFailures s l).map
        (fun p => "Event " ++ p.1 ++ ": " ++ p.2.message) := by
  intro l
  induction l with
  | nil => intro s; rfl
  | cons e rest ih =>
      intro s
      rcases h : apply_event s e with f | s'
      · simp [validateLoop, replayFailures, h, ih]
      · simp [validateLoop, replayFailures, h, ih]

theorem validateLoop_nil_iff :
    ∀ (l : List Event) (s : Option Snapshot),
      validateLoop s l = [] ↔ replayOk s l = true := by
  intro l
  induction l with
  | nil => intro s; simp [validateLoop, replayOk]
  | cons e rest ih =>
      intro s
      rcases h : apply_event s e with f | s'
      · simp [validateLoop, replayOk, h]
      · simp [validateLoop, replayOk, h, ih]

/-- C3: `validate_timeline` never propagates a reducer failure: it is the
rendering of the continue-on-failure replay of the sorted timeline —
exactly one error entry per failing event, carrying that event's id (and
the failure's message), the fold resuming from the last successfully
produced snapshot — and it returns `[]` exactly when every event of the
timeline applies successfully. -/
theorem validate_timeline_error_collection (events : List Event) :
    validate_timeline events =
      (replayFailures none (build_timeline events)).map
        (fun p => "Event " ++ p.1 ++ ": " ++ p.2.message) ∧
    (validate_timeline events = [] ↔
      replayOk none (build_timeline events) = true) :=
  ⟨validateLoop_eq_map _ none, validateLoop_nil_iff _ none⟩

/-! ### Branch lemmas for the reducer -/

theorem stateRels_relationshipsEnsured (st : Dict) :
    stateRels (relationshipsEnsured st) = stateRels st := by
  unfold relationshipsEnsured
  rcases hc : Dict.containsKey st "relationships"
  · have hget := (Dict.containsKey_false_iff st "relationships").mp hc
    simp only [Bool.false_eq_true, if_false]
    unfold stateRels
    rw [Dict.get?_set_self, hget]
  · simp

theorem filter_not_length_eq_iff {α : Type} (p : α → Bool) (l : List α) :
    ((l.filter (fun r => !(p r))).length = l.length) ↔ l.any p = false := by
  induction l with
  | nil => simp
  | cons a l ih =>
      rcases hp : p a
      · simp [List.filter_cons, hp, ih]
      · simp only [List.filter_cons, hp, Bool.not_true, Bool.false_eq_true,
          if_false, List.length_cons, List.any_cons, Bool.true_or]
        have hle := List.length_filter_le (fun r => !(p r)) l
        constructor
        · intro hlen; omega
        · intro hfalse; cases hfalse

theorem apply_event_created_exists (snap : Snapshot) (e : Event)
    (hdel : snap.deleted = false) (het : e.event_type = "created") :
    apply_event (some snap) e = .error (.entityAlreadyExists e.entity_id) := by
  simp [apply_event, het, hdel]

theorem apply_event_created_ok (s : Option Snapshot) (e : Event)
    (het : e.event_type = "created")
    (h : s = none ∨ ∃ snap, s = some snap ∧ snap.deleted = true) :
    apply_event s e = .ok
      { entity_id := e.entity_id, as_of := e.timestamp, state := e.payload,
        last_event_id := e.id, deleted := false } := by
  rcases h with rfl | ⟨snap, rfl, hdel⟩
  · simp [apply_event, het]
  · simp [apply_event, het, hdel]

theorem apply_event_rel_added (snap : Snapshot) (e : Event)
    (hdel : snap.deleted = false) (het : e.event_type = "relationship_added") :
    apply_event (some snap) e = .ok
      { entity_id := e.entity_id, as_of := e.timestamp,
        state := (relationshipsEnsured snap.state).set "relationships"
          (.arr (stateRels snap.state ++ [Value.obj (relRecord e.payload)])),
        last_event_id := e.id, deleted := false } := by
  simp [apply_event, het, hdel, stateRels_relationshipsEnsured]

theorem apply_event_rel_removed_fail (snap : Snapshot) (e : Event)
    (hdel : snap.deleted = false) (het : e.event_type = "relationship_removed")
    (hnone : (stateRels snap.state).any (relMatches e.payload) = false) :
    apply_event (some snap) e = .error (.relationshipNotFound
      (e.payload.getD "relationship_type" .null)
      (e.payload.getD "target_entity" .null)) := by
  have hlen : (((stateRels snap.state).filter
      (fun r => !(relMatches e.payload r))).length ==
      (stateRels snap.state).length) = true := by
    simp only [beq_iff_eq]
    exact (filter_not_length_eq_iff _ _).mpr hnone
  simp [apply_event, het, hdel, hlen]

theorem apply_event_rel_removed_ok (snap : Snapshot) (e : Event)
    (hdel : snap.deleted = false) (het : e.event_type = "relationship_removed")
    (hsome : (stateRels snap.state).any (relMatches e.payload) = true) :
    apply_event (some snap) e = .ok
      { entity_id := e.entity_id, as_of := e.timestamp,
        state := snap.state.set "relationships"
          (.arr ((stateRels snap.state).filter
            (fun r => !(relMatches e.payload r)))),
        last_event_id := e.id, deleted := false } := by
  have hlen : (((stateRels snap.state).filter
      (fun r => !(relMatches e.payload r))).length ==
      (stateRels snap.state).length) = false := by
    simp only [beq_eq_false_iff_ne, ne_eq, filter_not_length_eq_iff]
    simp [hsome]
  simp [apply_event, het, hdel, hlen]

/-! ### C7: compute_diff is empty on identical inputs -/

/-- C7: for every optional snapshot (including absent), diffing a snapshot
against itself yields an empty `changes` sequence. -/
theorem compute_diff_self (s : Option Snapshot) :
    (compute_diff s s).changes = [] := by
  unfold compute_diff
  simp only [bne_self_eq_false, Bool.false_eq_true, if_false, List.nil_append]
  apply List.filterMap_eq_nil_iff.mpr
  intro k hk
  simp

/-! ### C9: validate_event on a missing timestamp -/

theorem validate_event_eq (event : Dict) :
    validate_event event =
      (["id", "entity_id", "event_type", "timestamp", "payload"].filterMap
        (fun f => if event.containsKey f then none
                  else some ("Missing required field: " ++ f))) ++
      ((if (valid_types.map Value.str).contains (event.getD "event_type" .null)
        then []
        else ["Invalid event_type: " ++ Value.pyStr (event.getD "event_type" .null)]) ++
       (if tsParses (event.getD "timestamp" (.str "")) then []
        else ["Invalid timestamp format: " ++
          Value.pyStr (event.getD "timestamp" (.str ""))])) := by
  unfold validate_event
  rw [List.append_assoc]

/-- C9: an event mapping that lacks the `timestamp` field gets both a
missing-required-field error for `timestamp` and an
invalid-timestamp-format error (the absent timestamp defaults to the
empty string, which does not parse), so at least two errors; the model's
`validate_event` is total, reflecting that the Python function never
raises and always returns a list of error strings. -/
theorem validate_event_missing_timestamp (event : Dict)
    (h : Dict.containsKey event "timestamp" = false) :
    "Missing required field: timestamp" ∈ validate_event event ∧
    "Invalid timestamp format: " ∈ validate_event event ∧
    2 ≤ (validate_event event).length := by
  have hget : Dict.get? event "timestamp" = none :=
    (Dict.containsKey_false_iff _ _).mp h
  have hts : Dict.getD event "timestamp" (.str "") = .str "" := by
    simp [Dict.getD, hget]
  have hparse : tsParses (Value.str "") = false := by decide
  have hmsg : "Invalid timestamp format: " ++ Value.pyStr (Value.str "") =
      "Invalid timestamp format: " := by decide
  have hM : "Missing required field: timestamp" ∈
      (["id", "entity_id", "event_type", "timestamp", "payload"].filterMap
        (fun f => if event.containsKey f then none
                  else some ("Missing required field: " ++ f))) := by
    refine List.mem_filterMap.mpr ⟨"timestamp", by simp, ?_⟩
    rw [h]
    rfl
  rw [validate_event_eq, hts, hparse]
  simp only [Bool.false_eq_true, if_false, hmsg]
  refine ⟨List.mem_append.mpr (Or.inl hM), ?_, ?_⟩
  · exact List.mem_append.mpr (Or.inr (List.mem_append.mpr (Or.inr (by simp))))
  · have h1 : 1 ≤ (["id", "entity_id", "event_type", "timestamp", "payload"].filterMap
        (fun f => if event.containsKey f then none
                  else some ("Missing required field: " ++ f))).length :=
      List.length_pos.mpr (List.ne_nil_of_mem hM)
    simp only [List.length_append, List.length_singleton]
    omega

/-- Closed instance of `validate_event_missing_timestamp` at the empty
mapping (no fields at all). -/
theorem validate_event_missing_timestamp_witness :
    Dict.containsKey [] "timestamp" = false ∧
    ("Missing required field: timestamp" ∈ validate_event [] ∧
     "Invalid timestamp format: " ∈ validate_event [] ∧
     2 ≤ (validate_event []).length) :=
  ⟨by decide, validate_event_missing_timestamp [] (by decide)⟩

theorem apply_event_updated_ok (snap : Snapshot) (e : Event)
    (hdel : snap.deleted = false) (het : e.event_type = "updated") :
    apply_event (some snap) e = .ok
      { entity_id := e.entity_id, as_of := e.timestamp,
        state := e.payload.foldl (fun st p => Dict.set st p.1 p.2) snap.state,
        last_event_id := e.id, deleted := false } := by
  simp [apply_event, het, hdel]

theorem apply_event_deleted_ok (snap : Snapshot) (e : Event)
    (hdel : snap.deleted = false) (het : e.event_type = "deleted") :
    apply_event (some snap) e = .ok
      { entity_id := e.entity_id, as_of := e.timestamp,
        state := [("_deleted_state", Value.obj snap.state)],
        last_event_id := e.id, deleted := true } := by
  simp [apply_event, het, hdel]

/-! ### C1: precondition enforcement in apply_event -/

/-- C1: `apply_event` enforces the per-event-type preconditions and fails
exactly when they are violated — `created` on a live snapshot fails with
the entity-already-exists failure and succeeds otherwise; `updated`,
`deleted`, `relationship_added` and `relationship_removed` fail with the
entity-not-found failure on an absent snapshot and with the entity-deleted
failure on a deleted one, and otherwise succeed (`relationship_removed`
additionally requiring a matching record, else the relationship-not-found
failure); any event type outside the five known values fails with the
unknown-event-type failure. -/
theorem apply_event_precondition_enforcement (s : Option Snapshot) (e : Event) :
    (e.event_type = "created" →
      ((∃ snap, s = some snap ∧ snap.deleted = false) →
          apply_event s e = .error (.entityAlreadyExists e.entity_id)) ∧
      ((s = none ∨ ∃ snap, s = some snap ∧ snap.deleted = true) →
          ∃ out, apply_event s e = .ok out)) ∧
    (e.event_type = "updated" →
      (s = none →
          apply_event s e = .error (.entityNotFound "update" e.entity_id)) ∧
      (∀ snap, s = some snap → snap.deleted = true →
          apply_event s e = .error (.entityDeleted "update" e.entity_id)) ∧
      (∀ snap, s = some snap → snap.deleted = false →
          ∃ out, apply_event s e = .ok out)) ∧
    (e.event_type = "deleted" →
      (s = none →
          apply_event s e = .error (.entityNotFound "delete" e.entity_id)) ∧
      (∀ snap, s = some snap → snap.deleted = true →
          apply_event s e = .error (.entityDeleted "delete" e.entity_id)) ∧
      (∀ snap, s = some snap → snap.deleted = false →
          ∃ out, apply_event s e = .ok out)) ∧
    (e.event_type = "relationship_added" →
      (s = none →
          apply_event s e = .error (.entityNotFound "add relationship to" e.entity_id)) ∧
      (∀ snap, s = some snap → snap.deleted = true →
          apply_event s e = .error (.entityDeleted "add relationship to" e.entity_id)) ∧
      (∀ snap, s = some snap → snap.deleted = false →
          ∃ out, apply_event s e = .ok out)) ∧
    (e.event_type = "relationship_removed" →
      (s = none →
          apply_event s e = .error (.entityNotFound "remove relationship from" e.entity_id)) ∧
      (∀ snap, s = some snap → snap.deleted = true →
          apply_event s e = .error (.entityDeleted "remove relationship from" e.entity_id)) ∧
      (∀ snap, s = some snap → snap.deleted = false →
          (((stateRels snap.state).any (relMatches e.payload) = true →
              ∃ out, apply_event s e = .ok out) ∧
           ((stateRels snap.state).any (relMatches e.payload) = false →
              apply_event s e = .error (.relationshipNotFound
                (e.payload.getD "relationship_type" .null)
                (e.payload.getD "target_entity" .null)))))) ∧
    (e.event_type ∉ valid_types →
      apply_event s e = .error (.unknownEventType e.event_type)) := by
  refine ⟨?_, ?_, ?_, ?_, ?_, ?_⟩
  · intro het
    constructor
    · rintro ⟨snap, rfl, hdel⟩
      exact apply_event_created_exists snap e hdel het
    · intro h
      exact ⟨_, apply_event_created_ok s e het h⟩
  · intro het
    refine ⟨?_, ?_, ?_⟩
    · rintro rfl; simp [apply_event, het]
    · rintro snap rfl hdel; simp [apply_event, het, hdel]
    · rintro snap rfl hdel
      exact ⟨_, apply_event_updated_ok snap e hdel het⟩
  · intro het
    refine ⟨?_, ?_, ?_⟩
    · rintro rfl; simp [apply_event, het]
    · rintro snap rfl hdel; simp [apply_event, het, hdel]
    · rintro snap rfl hdel
      exact ⟨_, apply_event_deleted_ok snap e hdel het⟩
  · intro het
    refine ⟨?_, ?_, ?_⟩
    · rintro rfl; simp [apply_event, het]
    · rintro snap rfl hdel; simp [apply_event, het, hdel]
    · rintro snap rfl hdel
      exact ⟨_, apply_event_rel_added snap e hdel het⟩
  · intro het
    refine ⟨?_, ?_, ?_⟩
    · rintro rfl; simp [apply_event, het]
    · rintro snap rfl hdel; simp [apply_event, het, hdel]
    · rintro snap rfl hdel
      constructor
      · intro hsome
        exact ⟨_, apply_event_rel_removed_ok snap e hdel het hsome⟩
      · intro hnone
        exact apply_event_rel_removed_fail snap e hdel het hnone
  · intro hnot
    simp only [valid_types, List.mem_cons, List.not_mem_nil, or_false, not_or] at hnot
    obtain ⟨h1, h2, h3, h4, h5⟩ := hnot
    simp [apply_event, h1, h2, h3, h4, h5]

/-- Closed instance of `apply_event_precondition_enforcement`: a second
`created` on a live snapshot fails with the already-exists failure. -/
theorem apply_event_precondition_enforcement_witness :
    apply_event (some ⟨"e1", "t0", [], "ev0", false⟩)
        ⟨"ev1", "e1", "created", "t1", []⟩ =
      .error (.entityAlreadyExists "e1") :=
  ((apply_event_precondition_enforcement (some ⟨"e1", "t0", [], "ev0", false⟩)
      ⟨"ev1", "e1", "created", "t1", []⟩).1 rfl).1 ⟨_, rfl, rfl⟩

/-! ### C6: relationship_removed removes all matching records -/

/-- C6: on a live snapshot, `relationship_removed` removes every
relationship record matching the payload's type and target (the result's
`relationships` value is the filter keeping only non-matching records,
none of which matches), and it fails with the relationship-not-found
failure exactly when no record matches both. -/
theorem relationship_removed_removes_all (snap : Snapshot) (e : Event)
    (hdel : snap.deleted = false) (het : e.event_type = "relationship_removed") :
    ((stateRels snap.state).any (relMatches e.payload) = true →
        ∃ out, apply_event (some snap) e = .ok out ∧
          Dict.get? out.state "relationships" =
            some (.arr ((stateRels snap.state).filter
              (fun r => !(relMatches e.payload r)))) ∧
          ∀ r ∈ (stateRels snap.state).filter (fun r => !(relMatches e.payload r)),
            relMatches e.payload r = false) ∧
    ((stateRels snap.state).any (relMatches e.payload) = false →
        apply_event (some snap) e = .error (.relationshipNotFound
          (e.payload.getD "relationship_type" .null)
          (e.payload.getD "target_entity" .null))) := by
  constructor
  · intro hsome
    refine ⟨_, apply_event_rel_removed_ok snap e hdel het hsome,
      Dict.get?_set_self _ _ _, ?_⟩
    intro r hr
    have := List.of_mem_filter hr
    simpa using this
  · exact apply_event_rel_removed_fail snap e hdel het

def c6Snap : Snapshot := ⟨"e1", "t0",
  [("relationships", .arr
    [.obj [("type", .str "T"), ("target", .str "X")],
     .obj [("type", .str "U"), ("target", .str "Y")],
     .obj [("type", .str "T"), ("target", .str "X")]])],
  "ev0", false⟩

def c6Ev : Event := ⟨"ev1", "e1", "relationship_removed", "t1",
  [("relationship_type", .str "T"), ("target_entity", .str "X")]⟩

/-- Closed instance of `relationship_removed_removes_all`: a state with
two matching records (and one non-matching) loses both. -/
theorem relationship_removed_removes_all_witness :
    (stateRels c6Snap.state).any (relMatches c6Ev.payload) = true ∧
    (∃ out, apply_event (some c6Snap) c6Ev = .ok out ∧
      Dict.get? out.state "relationships" =
        some (.arr ((stateRels c6Snap.state).filter
          (fun r => !(relMatches c6Ev.payload r)))) ∧
      ∀ r ∈ (stateRels c6Snap.state).filter (fun r => !(relMatches c6Ev.payload r)),
        relMatches c6Ev.payload r = false) :=
  ⟨by decide, (relationship_removed_removes_all c6Snap c6Ev rfl rfl).1 (by decide)⟩

/-! ### C10: relationship_added with missing payload fields -/

def c10Snap : Snapshot := ⟨"e1", "t0", [], "ev0", false⟩

def c10Ev : Event := ⟨"ev1", "e1", "relationship_added", "t1",
  [("properties", .obj [("type", .str "Z")])]⟩

/-- C10 fails as stated in one corner: a payload lacking
`relationship_type` (and `target_entity`) whose `properties` mapping
itself carries a `type` entry does succeed, but the appended record's
type is the properties entry, not null — the `**properties` splat
overwrites the null placed for the missing field. -/
theorem relationship_added_null_defaults_counterexample :
    Dict.get? c10Ev.payload "relationship_type" = none ∧
    (apply_event (some c10Snap) c10Ev).map
        (fun out => Dict.get? out.state "relationships") =
      .ok (some (.arr [.obj [("type", .str "Z"), ("target", .null)]])) := by decide

/-- C10 amended: on a live snapshot, `relationship_added` always succeeds
whatever payload fields are missing — never a missing-field error — and
the appended record is built from the payload: each of `type` and
`target` is null whenever the corresponding payload field
(`relationship_type` / `target_entity`) is missing and the `properties`
mapping does not itself supply that entry (a properties entry named
`type` or `target` overrides the base record); when `properties` is
missing the record is exactly the two base entries, with no extras. -/
theorem relationship_added_null_defaults (snap : Snapshot) (e : Event)
    (hdel : snap.deleted = false) (het : e.event_type = "relationship_added") :
    ∃ out, apply_event (some snap) e = .ok out ∧
      Dict.get? out.state "relationships" =
        some (.arr (stateRels snap.state ++ [.obj (relRecord e.payload)])) ∧
      (Dict.get? e.payload "relationship_type" = none →
        Dict.get? (relProps e.payload) "type" = none →
        Dict.get? (relRecord e.payload) "type" = some .null) ∧
      (Dict.get? e.payload "target_entity" = none →
        Dict.get? (relProps e.payload) "target" = none →
        Dict.get? (relRecord e.payload) "target" = some .null) ∧
      (Dict.get? e.payload "properties" = none →
        relRecord e.payload =
          [("type", e.payload.getD "relationship_type" .null),
           ("target", e.payload.getD "target_entity" .null)]) := by
  refine ⟨_, apply_event_rel_added snap e hdel het,
    Dict.get?_set_self _ _ _, ?_, ?_, ?_⟩
  · intro h1 hp
    have hpAll : ∀ p ∈ relProps e.payload, p.1 ≠ "type" :=
      (Dict.get?_eq_none_iff _ _).mp hp
    unfold relRecord
    rw [Dict.get?_foldl_set_of_absent _ _ hpAll, Dict.get?_cons, if_pos rfl]
    unfold Dict.getD
    rw [h1]
    rfl
  · intro h2 hp
    have hpAll : ∀ p ∈ relProps e.payload, p.1 ≠ "target" :=
      (Dict.get?_eq_none_iff _ _).mp hp
    unfold relRecord
    rw [Dict.get?_foldl_set_of_absent _ _ hpAll, Dict.get?_cons,
      if_neg (by decide), Dict.get?_cons, if_pos rfl]
    unfold Dict.getD
    rw [h2]
    rfl
  · intro h3
    unfold relRecord relProps
    rw [h3]
    rfl

/-- Closed instance of `relationship_added_null_defaults` at a payload
carrying only `target_entity` — the missing type defaults to null, the
present target is kept, and no extras are merged. -/
theorem relationship_added_null_defaults_witness :
    ∃ out, apply_event (some c10Snap)
        ⟨"ev1", "e1", "relationship_added", "t1", [("target_entity", .str "X")]⟩ =
        .ok out ∧
      Dict.get? out.state "relationships" =
        some (.arr (stateRels c10Snap.state ++
          [.obj (relRecord [("target_entity", .str "X")])])) ∧
      (Dict.get? [("target_entity", Value.str "X")] "relationship_type" = none →
        Dict.get? (relProps [("target_entity", Value.str "X")]) "type" = none →
        Dict.get? (relRecord [("target_entity", Value.str "X")]) "type" = some .null) ∧
      (Dict.get? [("target_entity", Value.str "X")] "target_entity" = none →
        Dict.get? (relProps [("target_entity", Value.str "X")]) "target" = none →
        Dict.get? (relRecord [("target_entity", Value.str "X")]) "target" = some .null) ∧
      (Dict.get? [("target_entity", Value.str "X")] "properties" = none →
        relRecord [("target_entity", Value.str "X")] =
          [("type", Dict.getD [("target_entity", Value.str "X")] "relationship_type" .null),
           ("target", Dict.getD [("target_entity", Value.str "X")] "target_entity" .null)]) :=
  relationship_added_null_defaults c10Snap
    ⟨"ev1", "e1", "relationship_added", "t1", [("target_entity", .str "X")]⟩ rfl rfl

/-! ### C4: the relationship add/remove round trip -/

theorem stateRels_set (d : Dict) (xs : List Value) :
    stateRels (d.set "relationships" (.arr xs)) = xs := by
  unfold stateRels
  rw [Dict.get?_set_self]

def c4Snap : Snapshot := ⟨"e1", "t0",
  [("relationships", .arr [.obj [("type", .str "T"), ("target", .str "X")]])],
  "ev0", false⟩

def c4Add : Event := ⟨"ev-a", "e1", "relationship_added", "t1",
  [("relationship_type", .str "T"), ("target_entity", .str "X")]⟩

def c4Rem : Event := ⟨"ev-b", "e1", "relationship_removed", "t2",
  [("relationship_type", .str "T"), ("target_entity", .str "X")]⟩

/-- C4 fails as stated: on a live snapshot that already holds a
relationship record with the same type `T` and target `X`, adding
`(T, X)` and then removing `(T, X)` strips the pre-existing record too
(removal filters out every match), so the final `relationships` value
`[]` differs from the value before the add. -/
theorem relationship_roundtrip_counterexample :
    ((apply_event (some c4Snap) c4Add).bind
        (fun s1 => apply_event (some s1) c4Rem)).map
      (fun s2 => Dict.get? s2.state "relationships") =
      .ok (some (.arr [])) ∧
    Dict.get? c4Snap.state "relationships" =
      some (.arr [.obj [("type", .str "T"), ("target", .str "X")]]) := by decide

/-- C4 amended: on a live snapshot whose state holds a `relationships`
sequence containing no record with type `T` and target `X`, applying
`relationship_added` with relationship type `T`, target `X` and properties
that do not override the `type`/`target` entries, then
`relationship_removed` with the same `T` and `X`, yields a snapshot whose
state's `relationships` value equals its value before the add. -/
theorem relationship_roundtrip_restores (snap : Snapshot) (e1 e2 : Event)
    (T X : Value) (L : List Value)
    (hdel : snap.deleted = false)
    (het1 : e1.event_type = "relationship_added")
    (het2 : e2.event_type = "relationship_removed")
    (ht1 : e1.payload.getD "relationship_type" .null = T)
    (hx1 : e1.payload.getD "target_entity" .null = X)
    (ht2 : e2.payload.getD "relationship_type" .null = T)
    (hx2 : e2.payload.getD "target_entity" .null = X)
    (hpt : Dict.get? (relProps e1.payload) "type" = none)
    (hpx : Dict.get? (relProps e1.payload) "target" = none)
    (hL : Dict.get? snap.state "relationships" = some (.arr L))
    (hno : ∀ r ∈ L, ¬(Value.vget r "target" = X ∧ Value.vget r "type" = T)) :
    ∃ s1 s2, apply_event (some snap) e1 = .ok s1 ∧
      apply_event (some s1) e2 = .ok s2 ∧
      Dict.get? s2.state "relationships" = Dict.get? snap.state "relationships" := by
  have hptAll : ∀ p ∈ relProps e1.payload, p.1 ≠ "type" :=
    (Dict.get?_eq_none_iff _ _).mp hpt
  have hpxAll : ∀ p ∈ relProps e1.payload, p.1 ≠ "target" :=
    (Dict.get?_eq_none_iff _ _).mp hpx
  have hgetT : Dict.get? (relRecord e1.payload) "type" = some T := by
    unfold relRecord
    rw [Dict.get?_foldl_set_of_absent _ _ hptAll, Dict.get?_cons, if_pos rfl, ht1]
  have hgetX : Dict.get? (relRecord e1.payload) "target" = some X := by
    unfold relRecord
    rw [Dict.get?_foldl_set_of_absent _ _ hpxAll, Dict.get?_cons,
      if_neg (by decide), Dict.get?_cons, if_pos rfl, hx1]
  have hv1 : Value.vget (Value.obj (relRecord e1.payload)) "target" = X := by
    show Dict.getD (relRecord e1.payload) "target" Value.null = X
    unfold Dict.getD
    rw [hgetX]
    rfl
  have hv2 : Value.vget (Value.obj (relRecord e1.payload)) "type" = T := by
    show Dict.getD (relRecord e1.payload) "type" Value.null = T
    unfold Dict.getD
    rw [hgetT]
    rfl
  have hrecMatch : relMatches e2.payload (Value.obj (relRecord e1.payload)) = true := by
    unfold relMatches
    rw [ht2, hx2, hv1, hv2]
    simp
  have hLkeep : L.filter (fun r => !(relMatches e2.payload r)) = L := by
    apply List.filter_eq_self.mpr
    intro r hr
    have hn := hno r hr
    unfold relMatches
    rw [ht2, hx2]
    by_cases hta : Value.vget r "target" = X
    · have htb : ¬ Value.vget r "type" = T := fun h => hn ⟨hta, h⟩
      simp [hta, htb]
    · simp [hta]
  have hrels : stateRels snap.state = L := by
    unfold stateRels
    rw [hL]
  have happ1 := apply_event_rel_added snap e1 hdel het1
  have hany : (stateRels ((relationshipsEnsured snap.state).set "relationships"
      (.arr (stateRels snap.state ++ [Value.obj (relRecord e1.payload)])))).any
        (relMatches e2.payload) = true := by
    rw [stateRels_set]
    simp [List.any_append, hrecMatch]
  have happ2 := apply_event_rel_removed_ok
    { entity_id := e1.entity_id, as_of := e1.timestamp,
      state := (relationshipsEnsured snap.state).set "relationships"
        (.arr (stateRels snap.state ++ [Value.obj (relRecord e1.payload)])),
      last_event_id := e1.id, deleted := false } e2 rfl het2 hany
  refine ⟨_, _, happ1, happ2, ?_⟩
  show Dict.get? (((relationshipsEnsured snap.state).set "relationships"
      (.arr (stateRels snap.state ++ [Value.obj (relRecord e1.payload)]))).set
        "relationships"
        (.arr ((stateRels ((relationshipsEnsured snap.state).set "relationships"
          (.arr (stateRels snap.state ++ [Value.obj (relRecord e1.payload)])))).filter
            (fun r => !(relMatches e2.payload r))))) "relationships" =
    Dict.get? snap.state "relationships"
  rw [Dict.get?_set_self, stateRels_set, hrels, List.filter_append, hLkeep, hL]
  have hdrop : [Value.obj (relRecord e1.payload)].filter
      (fun r => !(relMatches e2.payload r)) = [] := by
    simp [hrecMatch]
  rw [hdrop, List.append_nil]

/-- Closed instance of `relationship_roundtrip_restores`: a live snapshot
with an empty `relationships` list gets it back after add then remove. -/
theorem relationship_roundtrip_restores_witness :
    ∃ s1 s2, apply_event (some ⟨"e1", "t0", [("relationships", .arr [])], "ev0", false⟩)
        c4Add = .ok s1 ∧
      apply_event (some s1) c4Rem = .ok s2 ∧
      Dict.get? s2.state "relationships" =
        Dict.get? (⟨"e1", "t0", [("relationships", .arr [])], "ev0", false⟩ : Snapshot).state
          "relationships" :=
  relationship_roundtrip_restores
    ⟨"e1", "t0", [("relationships", .arr [])], "ev0", false⟩ c4Add c4Rem
    (.str "T") (.str "X") []
    rfl rfl rfl (by decide) (by decide) (by decide) (by decide)
    (by decide) (by decide) (by decide) (by simp)

/-! ### C5: the shape of compute_diff's changes -/

theorem pairwise_filterMap_of_key {f : String → Option Change}
    (hf : ∀ k c, f k = some c → c.field = k) :
    ∀ ks : List String, ks.Pairwise (fun x y => pyStrLt x y = true) →
      (ks.filterMap f).Pairwise (fun c1 c2 => pyStrLt c1.field c2.field = true) := by
  intro ks
  induction ks with
  | nil => intro _; simp
  | cons k ks ih =>
      intro hp
      rw [List.pairwise_cons] at hp
      obtain ⟨hall, hrest⟩ := hp
      rcases hfk : f k with _ | c
      · simpa [List.filterMap_cons, hfk] using ih hrest
      · rw [List.filterMap_cons, hfk]
        refine List.Pairwise.cons ?_ (ih hrest)
        intro c' hc'
        obtain ⟨k', hk', hfk'⟩ := List.mem_filterMap.mp hc'
        rw [hf k c hfk, hf k' c' hfk']
        exact hall k' hk'

def c5Before : Snapshot := ⟨"e", "t1", [], "x", false⟩

def c5After : Snapshot := ⟨"e", "t2", [("a", .null)], "y", false⟩

/-- C5 fails as stated: the field `a` is absent in the before state and
present with a null value in the after state — values the claim requires
to be represented distinctly, hence structurally unequal — yet
`compute_diff` emits no change record for it, because `dict.get` maps an
absent field to `None`, identical to a stored null. -/
theorem compute_diff_absent_null_counterexample :
    (compute_diff (some c5Before) (some c5After)).changes = [] ∧
    Dict.get? c5Before.state "a" = none ∧
    Dict.get? c5After.state "a" = some .null := by decide

/-- C5 amended: after the deleted-flag comparison, `compute_diff` emits
one change record per field in the union of the two states' top-level
field names, in strictly increasing lexicographic field order, exactly
when the two values retrieved with a null default differ — an absent
field is represented as null in the change record, identically to a field
present with null (present-but-empty values such as `""` or `[]` remain
distinct from absent). -/
theorem compute_diff_changes_characterization (b a : Option Snapshot) :
    ∃ tail,
      (compute_diff b a).changes =
        (if deletedOf b != deletedOf a then
          [Change.mk "deleted" (.bool (deletedOf b)) (.bool (deletedOf a))]
         else []) ++ tail ∧
      tail.Pairwise (fun c1 c2 => pyStrLt c1.field c2.field = true) ∧
      (∀ c ∈ tail,
        c.before = Dict.getD (stateOf b) c.field .null ∧
        c.after = Dict.getD (stateOf a) c.field .null ∧
        c.before ≠ c.after) ∧
      (∀ k, (k ∈ (stateOf b).map Prod.fst ∨ k ∈ (stateOf a).map Prod.fst) →
        Dict.getD (stateOf b) k .null ≠ Dict.getD (stateOf a) k .null →
        ∃ c ∈ tail, c.field = k) := by
  refine ⟨(List.insertionSort strLeP
      (((stateOf b).map Prod.fst ++ (stateOf a).map Prod.fst).dedup)).filterMap
    (fun k =>
      if Dict.getD (stateOf b) k .null != Dict.getD (stateOf a) k .null then
        some (Change.mk k (Dict.getD (stateOf b) k .null)
          (Dict.getD (stateOf a) k .null))
      else none), rfl, ?_, ?_, ?_⟩
  · have hsorted : (List.insertionSort strLeP
        (((stateOf b).map Prod.fst ++ (stateOf a).map Prod.fst).dedup)).Pairwise strLeP :=
      List.sorted_insertionSort strLeP _
    have hnodup : (List.insertionSort strLeP
        (((stateOf b).map Prod.fst ++ (stateOf a).map Prod.fst).dedup)).Nodup :=
      ((List.perm_insertionSort strLeP _).nodup_iff).mpr (List.nodup_dedup _)
    have hstrict : (List.insertionSort strLeP
        (((stateOf b).map Prod.fst ++ (stateOf a).map Prod.fst).dedup)).Pairwise
          (fun x y => pyStrLt x y = true) := by
      refine (List.Pairwise.and hsorted hnodup).imp ?_
      rintro x y ⟨hle, hne⟩
      exact (pyStrLe_iff.mp hle).resolve_right hne
    refine pairwise_filterMap_of_key ?_ _ hstrict
    intro k c hfk
    rcases hcond : (Dict.getD (stateOf b) k .null != Dict.getD (stateOf a) k .null)
    · rw [hcond] at hfk; cases hfk
    · rw [hcond] at hfk
      simp only [if_true] at hfk
      cases hfk
      rfl
  · intro c hc
    obtain ⟨k, hkK, hfk⟩ := List.mem_filterMap.mp hc
    rcases hcond : (Dict.getD (stateOf b) k .null != Dict.getD (stateOf a) k .null)
    · rw [hcond] at hfk; cases hfk
    · rw [hcond] at hfk
      simp only [if_true] at hfk
      cases hfk
      exact ⟨rfl, rfl, bne_iff_ne.mp hcond⟩
  · intro k hk hne
    have hkK : k ∈ List.insertionSort strLeP
        (((stateOf b).map Prod.fst ++ (stateOf a).map Prod.fst).dedup) := by
      rw [List.mem_insertionSort, List.mem_dedup, List.mem_append]
      exact hk
    refine ⟨Change.mk k (Dict.getD (stateOf b) k .null) (Dict.getD (stateOf a) k .null),
      List.mem_filterMap.mpr ⟨k, hkK, ?_⟩, rfl⟩
    rw [if_pos (bne_iff_ne.mpr hne)]

/-- Closed instance of `compute_diff_changes_characterization` at two
concrete snapshots. -/
theorem compute_diff_changes_characterization_witness :
    ∃ tail,
      (compute_diff (some c5Before) (some c5After)).changes =
        (if deletedOf (some c5Before) != deletedOf (some c5After) then
          [Change.mk "deleted" (.bool (deletedOf (some c5Before)))
            (.bool (deletedOf (some c5After)))]
         else []) ++ tail ∧
      tail.Pairwise (fun c1 c2 => pyStrLt c1.field c2.field = true) ∧
      (∀ c ∈ tail,
        c.before = Dict.getD (stateOf (some c5Before)) c.field .null ∧
        c.after = Dict.getD (stateOf (some c5After)) c.field .null ∧
        c.before ≠ c.after) ∧
      (∀ k, (k ∈ (stateOf (some c5Before)).map Prod.fst ∨
             k ∈ (stateOf (some c5After)).map Prod.fst) →
        Dict.getD (stateOf (some c5Before)) k .null ≠
          Dict.getD (stateOf (some c5After)) k .null →
        ∃ c ∈ tail, c.field = k) :=
  compute_diff_changes_characterization (some c5Before) (some c5After)

/-- Closed instance of `build_timeline_ordering` on a concrete two-event
list given in reverse order. -/
theorem build_timeline_ordering_witness :
    (build_timeline [c4Rem, c4Add]).Perm [c4Rem, c4Add] ∧
    (build_timeline [c4Rem, c4Add]).Sorted eventLe :=
  ⟨(build_timeline_ordering [c4Rem, c4Add]).1,
   (build_timeline_ordering [c4Rem, c4Add]).2.1⟩
